import Mathlib

/-!
Verification of the response-generation pipeline of a LINE-bot Lambda
function (src/app.py).  The pipeline (`generate_response` and its helpers)
is embedded shallowly: Python strings become `String`, the external search
backend and the OpenRouter completion endpoint become an explicit
environment of oracles, `None` becomes `Option`, and a raised exception
becomes `Except.error`.  External calls made along the way are logged so
that claims about which services are invoked can be stated.
-/

set_option maxRecDepth 3000

namespace LineBot

/-! ## Python string primitives -/

/-- The ASCII whitespace recognised by Python's `str.strip` and the regex
class `\s`: space, tab, newline, carriage return, vertical tab, form feed. -/
def pyIsSpace (c : Char) : Bool :=
  c = ' ' || c = '\t' || c = '\n' || c = '\r' || c = '\x0b' || c = '\x0c'

/-- Python `len(s)` (counts code points, as Lean's `List.length` on `data`). -/
def pyLen (s : String) : Nat := s.data.length

/-- Python `s[:n]`. -/
def pyTake (n : Nat) (s : String) : String := String.mk (s.data.take n)

/-- Python `s[n:]`. -/
def pyDrop (n : Nat) (s : String) : String := String.mk (s.data.drop n)

/-- Python `s.lower()` (ASCII model). -/
def pyLower (s : String) : String := String.mk (s.data.map Char.toLower)

/-- Python `s.strip()` on a character list. -/
def pyStrip (l : List Char) : List Char :=
  ((l.dropWhile pyIsSpace).reverse.dropWhile pyIsSpace).reverse

/-- Python `s.strip()`. -/
def pyStripS (s : String) : String := String.mk (pyStrip s.data)

/-- `startsList pat l` is true iff `pat` is a prefix of `l`
(Python `s.startswith(pat)`). -/
def startsList : List Char → List Char → Bool
  | [], _ => true
  | _ :: _, [] => false
  | p :: ps, c :: cs => p = c && startsList ps cs

/-- Python `s.startswith(pat)`. -/
def pyStartsWith (s pat : String) : Bool := startsList pat.data s.data

/-- `listContains pat l` is true iff `pat` occurs in `l` as a contiguous
sublist (Python `pat in s`). -/
def listContains (pat : List Char) : List Char → Bool
  | [] => pat = []
  | c :: t => startsList pat (c :: t) || listContains pat t

/-- Python `pat in s` (substring test). -/
def strContains (s pat : String) : Bool := listContains pat.data s.data

/-- Case-insensitive substring test, as `re.search(pat, s, re.IGNORECASE)`
for a pattern with no metacharacters. -/
def ciContains (s pat : String) : Bool :=
  listContains (pat.data.map Char.toLower) (s.data.map Char.toLower)

/-- Python `'\n'.join(parts)`. -/
def joinNl : List String → String
  | [] => ""
  | [a] => a
  | a :: b :: t => a ++ "\n" ++ joinNl (b :: t)

/-! ## `clean_text` (src/app.py lines 459-473)

The three `re.sub` passes are embedded as fuel-indexed scanners; the fuel
is the input length, which bounds the number of scanning steps. -/

/-- `re.sub(r'\s+', ' ', ·)`: collapse every whitespace run to one space. -/
def collapseWsF : Nat → List Char → List Char
  | 0, l => l
  | _ + 1, [] => []
  | f + 1, c :: rest =>
    if pyIsSpace c then ' ' :: collapseWsF f (rest.dropWhile pyIsSpace)
    else c :: collapseWsF f rest

/-- A character of the regex class `[a-zA-Z0-9#]`. -/
def entityChar (c : Char) : Bool := c.isAlpha || c.isDigit || c = '#'

/-- `re.sub(r'&[a-zA-Z0-9#]+;', '', ·)`: drop HTML-entity-like spans.  At
each `&` the scanner takes the maximal run of entity characters; the match
succeeds iff the run is nonempty and a `;` follows. -/
def remEntF : Nat → List Char → List Char
  | 0, l => l
  | _ + 1, [] => []
  | f + 1, c :: rest =>
    if c = '&' then
      let run := rest.takeWhile entityChar
      match rest.drop run.length with
      | ';' :: tail =>
        if run = [] then c :: remEntF f rest else remEntF f tail
      | _ => c :: remEntF f rest
    else c :: remEntF f rest

/-- `re.sub(r'<[^>]+>', '', ·)`: drop tag-like spans.  At each `<` the
scanner takes the maximal run of non-`>` characters; the match succeeds iff
the run is nonempty and a `>` follows. -/
def remTagF : Nat → List Char → List Char
  | 0, l => l
  | _ + 1, [] => []
  | f + 1, c :: rest =>
    if c = '<' then
      let run := rest.takeWhile (fun d => !(d == '>'))
      match rest.drop run.length with
      | '>' :: tail =>
        if run = [] then c :: remTagF f rest else remTagF f tail
      | _ => c :: remTagF f rest
    else c :: remTagF f rest

/-- `clean_text(text)` from src/app.py lines 459-473: empty (falsy) input
yields `""`; otherwise strip, collapse whitespace, then remove
HTML-entity-like and tag-like spans, in that order. -/
def clean_text (text : String) : String :=
  if text = "" then ""
  else
    let t1 := collapseWsF (pyStrip text.data).length (pyStrip text.data)
    let t2 := remEntF t1.length t1
    let t3 := remTagF t2.length t2
    String.mk t3

/-! ## The query-suggestion regex of `extract_search_query`

src/app.py line 336 runs
`re.search(r'Search:\s*["\']?([^"\'.\n]+)["\']?', analysis_response, re.IGNORECASE)`
and keeps group 1.  The embedding below reproduces the backtracking
behaviour of that pattern: `\s*` is greedy but gives characters back,
`["\']?` prefers to consume a quote, and the capturing class needs at
least one character that is none of `"`, `'`, `.`, newline. -/

/-- A character the capturing class `[^"\'.\n]+` accepts. -/
def capOk (c : Char) : Bool :=
  !(c = '"' || c = '\'' || c = '.' || c = '\n')

/-- Greedy match of `([^"\'.\n]+)`: the maximal run of acceptable
characters, failing when it is empty. -/
def classCapture (l : List Char) : Option (List Char) :=
  let cap := l.takeWhile capOk
  if cap = [] then none else some cap

/-- Match of `["\']?([^"\'.\n]+)`: consume an optional quote (preferred),
backtracking to the quoteless reading if the class then fails. -/
def quoteClass (l : List Char) : Option (List Char) :=
  match l with
  | c :: t =>
    if c = '"' || c = '\'' then
      match classCapture t with
      | some cap => some cap
      | none => classCapture l
    else classCapture l
  | [] => classCapture l

/-- Backtracking over `\s*`: try consuming `k` whitespace characters first
(the greedy reading), then ever fewer. -/
def tryWs (r : List Char) : Nat → Option (List Char)
  | 0 => quoteClass r
  | k + 1 =>
    match quoteClass (r.drop (k + 1)) with
    | some cap => some cap
    | none => tryWs r k

/-- `ciLookingAt pat l`: `pat` (given lowercase) matches the start of `l`
case-insensitively. -/
def ciLookingAt : List Char → List Char → Bool
  | [], _ => true
  | _ :: _, [] => false
  | p :: ps, c :: cs => Char.toLower c = p && ciLookingAt ps cs

/-- Try the whole pattern anchored at the start of `l`; `some cap` is the
captured group. -/
def matchQueryAt (l : List Char) : Option (List Char) :=
  if ciLookingAt "search:".data l then
    let r := l.drop 7
    tryWs r (r.takeWhile pyIsSpace).length
  else none

/-- `re.search`: try the pattern at every position, leftmost match wins. -/
def findQuery : List Char → Option (List Char)
  | [] => none
  | c :: t =>
    match matchQueryAt (c :: t) with
    | some cap => some cap
    | none => findQuery t

/-! ## The external-service environment

`generate_response` talks to two outside services, both wrapped in the
environment: the DuckDuckGo text search (`ddgs.text`) and the OpenRouter
chat-completions HTTP endpoint (`requests.post` + `raise_for_status` +
JSON-shape access in `call_openrouter_api`).  An oracle answers each call
from its arguments; `raise` stands for any exception (transport error,
non-2xx status, malformed body/JSON shape).  Calls that are actually
issued are logged, so that claims about which services run are statable. -/

/-- One result dictionary from `ddgs.text` (the `href` field is read by
`perform_search` but never used in the rendering). -/
structure SearchResult where
  title : String
  body : String
  href : String
deriving DecidableEq, Repr

/-- Outcome of one `ddgs.text(query, max_results=…)` call. -/
inductive SearchOutcome where
  | raise
  | ok (results : List SearchResult)
deriving DecidableEq, Repr

/-- Outcome of one OpenRouter HTTP exchange: `ok content` is the string at
`result["choices"][0]["message"]["content"]` (before `.strip()`), `raise`
is any exception on the way to it. -/
inductive ApiOutcome where
  | raise
  | ok (content : String)
deriving DecidableEq, Repr

/-- An external call the pipeline has issued. -/
inductive ExtCall where
  | search (query : String)
  | completion (system_prompt user_message : String) (max_tokens : Nat)
deriving DecidableEq, Repr

/-- The ambient state of one `generate_response` run: whether
`OPENROUTER_API_KEY` is set, the current wall-clock string used by the
`time` command, the two service oracles, and the two search settings
(`max_results`, `summary_length`, read from `SEARCH_CONFIG` with defaults
3 and 300 at the call site in `perform_search`). -/
structure Env where
  apiKey : Bool
  now : String
  api : String → String → Nat → ApiOutcome
  searchRaw : String → SearchOutcome
  maxResults : Nat
  summaryLength : Nat

/-! ## String constants of src/app.py

The repository file is stored with doubly-encoded (mojibake) UTF-8, so the
bullet, magnifier and light-bulb glyphs appear below exactly as Python
decodes the file: as the character sequences `\xe2€\xa2`,
`\xf0Ÿ”` and `\xf0Ÿ’\xa1`. -/

/-- Reply of the `hello`/`hi` command (line 223). -/
def greeting_reply : String :=
  "Hello! How can I help you today? I can search the web for current information or answer general questions!"

/-- Reply of the `help` command (line 225). -/
def help_reply : String :=
  "I'm a LINE bot with AI and web search capabilities!\n\n\xe2€\xa2 Ask me anything and I'll decide if I need to search for current information\n\xe2€\xa2 Say 'search [query]' for direct web search\n\xe2€\xa2 I can help with current events, weather, news, tech updates, and more!"

/-- The final fallback reply (line 270). -/
def fallback_reply (user_message : String) : String :=
  "I received your message: " ++ user_message ++ "\nI'm experiencing some technical issues. Please try again later."

/-- The system prompt of `analyze_search_need` (lines 277-307). -/
def analyze_system_prompt : String :=
  "You are an AI assistant that analyzes user questions to determine if they need web search for current information.\n\nAnalyze the user's question and determine if it requires recent/current information that would benefit from web search.\n\nQuestions that NEED web search:\n- Current events, news, weather\n- Recent developments, latest updates\n- Current prices, stock market, live data\n- Recent sports scores, match results\n- Today's/recent information about anything\n- Breaking news or trending topics\n\nQuestions that DON'T NEED web search:\n- General knowledge questions\n- Definitions, explanations of concepts\n- Historical facts (unless asking for recent updates)\n- Math calculations\n- Personal advice or opinions\n- Simple greetings, casual conversation\n\nRespond with one of these tags:\n- <search>YES</search> if web search is needed\n- <search>NO</search> if web search is not needed\n\nAfter the tag, briefly explain your reasoning and if search is needed, suggest a good search query.\n\nExamples:\n- \"What's the weather today?\" \xe2†’ <search>YES</search> Need current weather data. Search: \"weather today\"\n- \"What is Python programming?\" \xe2†’ <search>NO</search> General knowledge question about programming.\n- \"Latest AI news\" \xe2†’ <search>YES</search> Need current AI developments. Search: \"latest AI news 2025\"\n- \"How are you?\" \xe2†’ <search>NO</search> Casual greeting, no search needed."

/-- The system prompt of `generate_contextual_response` (lines 352-356). -/
def contextual_system_prompt : String :=
  "You are a helpful LINE bot assistant. The user asked a question and I've gathered some recent web search results for you.\n\nUse the search results to provide a helpful, accurate, and concise answer to the user's question. \nKeep your response under 300 characters when possible.\nIf the search results don't fully answer the question, acknowledge what you found and suggest they search for more specific terms."

/-- The user content of the contextual call (line 358). -/
def context_message (user_message search_results : String) : String :=
  "User question: " ++ user_message ++ "\n\nSearch results:\n" ++ search_results ++ "\n\nPlease provide a helpful response based on this information."

/-- The system prompt of `generate_ai_response_http` (lines 403-406). -/
def direct_system_prompt : String :=
  "You are a helpful and friendly LINE bot assistant. \n    Keep your responses concise (under 200 characters when possible) and engaging.\n    Be helpful, informative, and maintain a conversational tone.\n    If you don't know something, admit it honestly."

/-- The no-results message of `perform_search` (line 431). -/
def no_results_reply (query : String) : String :=
  "I couldn't find any results for '" ++ query ++ "'. Try a different search term!"

/-- The search-failure message of `perform_search` (line 456). -/
def search_error_reply (query : String) : String :=
  "Sorry, I encountered an error while searching for '" ++ query ++ "'. Please try again later."

/-- The header line of the search rendering (line 434). -/
def results_header (query : String) : String :=
  "\xf0Ÿ” Search results for '" ++ query ++ "':\n"

/-- The suffix appended when the rendering is cut at 1800 characters
(line 450). -/
def truncation_hint : String :=
  "...\n\n\xf0Ÿ’\xa1 Try more specific search terms for better results!"

/-! ## The pipeline functions (src/app.py lines 210-456) -/

/-- `call_openrouter_api` (lines 364-393).  With no API key configured it
returns `None` before any HTTP traffic; otherwise the HTTP exchange either
raises (`requests.post`, `raise_for_status`, JSON-shape access) or yields
the first choice's content, which is returned `.strip()`ped. -/
def call_openrouter_api (env : Env) (system_prompt user_message : String)
    (max_tokens : Nat) : Except Unit (Option String) × List ExtCall :=
  if env.apiKey then
    match env.api system_prompt user_message max_tokens with
    | .raise => (.error (), [.completion system_prompt user_message max_tokens])
    | .ok content =>
      (.ok (some (pyStripS content)), [.completion system_prompt user_message max_tokens])
  else (.ok none, [])

/-- `analyze_search_need` (lines 273-309): one completion call with the
fixed taxonomy prompt and `max_tokens=100`. -/
def analyze_search_need (env : Env) (user_message : String) :
    Except Unit (Option String) × List ExtCall :=
  call_openrouter_api env analyze_system_prompt user_message 100

/-- `should_search` (lines 312-322): a falsy response is `False`,
otherwise search for `<search>YES</search>` case-insensitively. -/
def should_search : Option String → Bool
  | none => false
  | some s => if s = "" then false else ciContains s "<search>YES</search>"

/-- `extract_search_query` (lines 325-345): a falsy response falls back to
the user message; otherwise the first `Search:` pattern's stripped capture
is used when nonempty, the user message otherwise. -/
def extract_search_query (analysis_response : Option String)
    (user_message : String) : String :=
  match analysis_response with
  | none => user_message
  | some s =>
    if s = "" then user_message
    else
      match findQuery s.data with
      | some cap =>
        let suggested_query := String.mk (pyStrip cap)
        if suggested_query = "" then user_message else suggested_query
      | none => user_message

/-- `generate_contextual_response` (lines 348-361): one completion call
grounded on the search text; a falsy reply (None or empty) falls back to
the raw `search_results`; an exception propagates. -/
def generate_contextual_response (env : Env)
    (user_message search_results : String) :
    Except Unit String × List ExtCall :=
  match call_openrouter_api env contextual_system_prompt
      (context_message user_message search_results) 200 with
  | (.error e, cs) => (.error e, cs)
  | (.ok none, cs) => (.ok search_results, cs)
  | (.ok (some response), cs) =>
    (.ok (if response = "" then search_results else response), cs)

/-- `generate_ai_response_http` (lines 396-411): the direct-answer
completion call (`max_tokens=150`); returns whatever the API helper
returned, `None` included. -/
def generate_ai_response_http (env : Env) (user_message : String) :
    Except Unit (Option String) × List ExtCall :=
  call_openrouter_api env direct_system_prompt user_message 150

/-- The numbered entries of the search rendering (lines 436-444): index
from 1, title cut to 80 characters, snippet cut to `summary_length` and
cleaned, each entry `"{i}. {title}\n{snippet}...\n"`. -/
def format_entries (summary_length : Nat) : Nat → List SearchResult → List String
  | _, [] => []
  | i, r :: rest =>
    (toString i ++ ". " ++ pyTake 80 r.title ++ "\n"
        ++ clean_text (pyTake summary_length r.body) ++ "...\n")
      :: format_entries summary_length (i + 1) rest

/-- The raw (pre-truncation) rendering of a result list: header plus
entries for the first `max_results` results, joined by newlines
(lines 434-446). -/
def format_results (env : Env) (query : String) (results : List SearchResult) : String :=
  joinNl (results_header query :: format_entries env.summaryLength 1 (results.take env.maxResults))

/-- `perform_search` (lines 414-456).  The backend call either raises
(mapped by the enclosing `try` to the error message), returns no results
(the no-results message), or returns results, whose rendering is cut at
1800 characters with `truncation_hint` appended when longer. -/
def perform_search (env : Env) (query : String) : String × List ExtCall :=
  match env.searchRaw query with
  | .raise => (search_error_reply query, [.search query])
  | .ok results =>
    if results = [] then (no_results_reply query, [.search query])
    else
      let response := format_results env query results
      (if 1800 < pyLen response then pyTake 1800 response ++ truncation_hint else response,
       [.search query])

/-- The `except` block of lines 263-267: with an API key configured, retry
the direct answer (whose own exception now propagates to the caller);
without one, fall through to the final fallback of line 270. -/
def ai_error_handler (env : Env) (user_message : String) (calls : List ExtCall) :
    Except Unit (Option String) × List ExtCall :=
  if env.apiKey then
    match generate_ai_response_http env user_message with
    | (r, cs) => (r, calls ++ cs)
  else (.ok (some (fallback_reply user_message)), calls)

/-- Lines 232-238: the explicit `search ` command.  The query is the
stripped remainder of the original-case message; the reply is contextual
composition when the search text passes the `I couldn't find` filter, the
search text itself otherwise (its `or` fallback string is kept although
`perform_search` never returns a falsy value). -/
def explicit_search_branch (env : Env) (user_message : String) :
    Except Unit (Option String) × List ExtCall :=
  let query := pyStripS (pyDrop 7 user_message)
  let sr := perform_search env query
  if sr.1 ≠ "" ∧ pyStartsWith sr.1 "I couldn't find" = false then
    match generate_contextual_response env user_message sr.1 with
    | (.error e, cs) => (.error e, sr.2 ++ cs)
    | (.ok r, cs) => (.ok (some r), sr.2 ++ cs)
  else
    (.ok (some (if sr.1 ≠ "" then sr.1 else "Sorry, I couldn't find any relevant information.")),
     sr.2)

/-- Lines 241-267: the `try` block of the LLM-assisted path
(`ai_error_handler` standing for its `except` block). -/
def ai_assisted_branch (env : Env) (user_message : String) :
    Except Unit (Option String) × List ExtCall :=
  match analyze_search_need env user_message with
  | (.error _, cs1) => ai_error_handler env user_message cs1
  | (.ok search_decision, cs1) =>
    if should_search search_decision then
      let search_query := extract_search_query search_decision user_message
      let sr := perform_search env search_query
      if sr.1 ≠ "" ∧ pyStartsWith sr.1 "I couldn't find" = false then
        match generate_contextual_response env user_message sr.1 with
        | (.error _, cs3) => ai_error_handler env user_message (cs1 ++ sr.2 ++ cs3)
        | (.ok r, cs3) => (.ok (some r), cs1 ++ sr.2 ++ cs3)
      else
        match generate_ai_response_http env user_message with
        | (.error _, cs3) => ai_error_handler env user_message (cs1 ++ sr.2 ++ cs3)
        | (.ok o, cs3) => (.ok o, cs1 ++ sr.2 ++ cs3)
    else
      match generate_ai_response_http env user_message with
      | (.error _, cs3) => ai_error_handler env user_message (cs1 ++ cs3)
      | (.ok o, cs3) => (.ok o, cs1 ++ cs3)

/-- `generate_response` (lines 210-270): canned commands first, then the
explicit `search ` command, then the LLM-assisted path under `try`, then
the final fallback.  The result is `.error ()` when the Python function
raises to its caller, `.ok v` with `v` the returned value otherwise
(`none` standing for Python `None`). -/
def generate_response (env : Env) (user_message : String) :
    Except Unit (Option String) × List ExtCall :=
  let user_message_lower := pyLower user_message
  if strContains user_message_lower "hello" || strContains user_message_lower "hi" then
    (.ok (some greeting_reply), [])
  else if strContains user_message_lower "help" then
    (.ok (some help_reply), [])
  else if strContains user_message_lower "time" then
    (.ok (some ("Current time: " ++ env.now)), [])
  else if pyStartsWith user_message_lower "search " then
    explicit_search_branch env user_message
  else if env.apiKey then
    ai_assisted_branch env user_message
  else
    (.ok (some (fallback_reply user_message)), [])

/-! ## Concrete environments used by counterexamples and witnesses -/

/-- API key configured, every completion call raises, search succeeds with
one result. -/
def envApiRaise : Env :=
  ⟨true, "", fun _ _ _ => .raise,
   fun _ => .ok [⟨"Cat facts", "All about cats", "u"⟩], 3, 300⟩

/-- API key configured, classifier answers `<search>YES</search>`, every
other completion answers the empty string, search raises. -/
def envSearchFails : Env :=
  ⟨true, "",
   fun system_prompt _ _ =>
     if pyStartsWith system_prompt "You are an AI" then .ok "<search>YES</search>" else .ok "",
   fun _ => .raise, 3, 300⟩

/-- No API key, search succeeds with one result; default settings. -/
def envNoKey : Env :=
  ⟨false, "", fun _ _ _ => .raise,
   fun _ => .ok [⟨"Cat facts", "All about cats", "u"⟩], 3, 300⟩

/-- No API key, search finds nothing. -/
def envNoHits : Env :=
  ⟨false, "", fun _ _ _ => .raise, fun _ => .ok [], 3, 300⟩

/-- API key configured, classifier emits both tags, search finds nothing. -/
def envBothTags : Env :=
  ⟨true, "",
   fun _ _ _ => .ok "<search>NO</search> but also <search>YES</search>",
   fun _ => .ok [], 3, 300⟩

/-- API key configured, classifier declines search. -/
def envSaysNo : Env :=
  ⟨true, "", fun _ _ _ => .ok "<search>NO</search> general question", fun _ => .ok [], 3, 300⟩

/-- API key configured, every completion succeeds with fixed text, search
succeeds with one result. -/
def envAllOk : Env :=
  ⟨true, "", fun _ _ _ => .ok "A fine answer",
   fun _ => .ok [⟨"Cat facts", "All about cats", "u"⟩], 3, 300⟩

/-! ## Helper lemmas -/

instance {ε α : Type} [DecidableEq ε] [DecidableEq α] : DecidableEq (Except ε α)
  | .error e, .error f =>
    if h : e = f then isTrue (by rw [h]) else isFalse (fun hh => h (by cases hh; rfl))
  | .ok a, .ok b =>
    if h : a = b then isTrue (by rw [h]) else isFalse (fun hh => h (by cases hh; rfl))
  | .error _, .ok _ => isFalse (fun hh => by cases hh)
  | .ok _, .error _ => isFalse (fun hh => by cases hh)

theorem data_append (a b : String) : (a ++ b).data = a.data ++ b.data := rfl

theorem pyLen_append (a b : String) : pyLen (a ++ b) = pyLen a + pyLen b := by
  simp [pyLen, data_append]

theorem str_ne_empty {s : String} (h : s.data ≠ []) : s ≠ "" := by
  intro he
  rw [he] at h
  exact h rfl

theorem startsList_self_append (p r : List Char) : startsList p (p ++ r) = true := by
  induction p with
  | nil => rfl
  | cons c t ih => simp [startsList, ih]

theorem pyLen_mk (l : List Char) : pyLen (String.mk l) = l.length := rfl

theorem pyLen_pyTake (n : Nat) (s : String) : pyLen (pyTake n s) = min n (pyLen s) := by
  simp [pyLen, pyTake, List.length_take]

theorem str_ne_empty_len {s : String} (h : 0 < pyLen s) : s ≠ "" := by
  intro he
  rw [he] at h
  exact absurd h (by decide)

/-- The rendering of a nonempty part list starts with its first part. -/
theorem joinNl_cons (a : String) (t : List String) :
    ∃ s, (joinNl (a :: t)).data = a.data ++ s := by
  cases t with
  | nil => exact ⟨[], by simp [joinNl]⟩
  | cons b t =>
    exact ⟨'\n' :: (joinNl (b :: t)).data, by simp [joinNl, data_append, List.append_assoc]⟩

/-- The search rendering's header starts with the magnifier glyph
(the `\xf0` of the file's mojibake), whatever the query. -/
theorem results_header_head (q : String) :
    ∃ s, (results_header q).data = '\xf0' :: s := by
  refine ⟨"Ÿ” Search results for '".data ++ (q.data ++ "':\n".data), ?_⟩
  simp [results_header, data_append]

/-- The whole raw rendering starts with the magnifier glyph. -/
theorem format_results_head (env : Env) (q : String) (results : List SearchResult) :
    ∃ s, (format_results env q results).data = '\xf0' :: s := by
  obtain ⟨s1, h1⟩ := joinNl_cons (results_header q)
    (format_entries env.summaryLength 1 (results.take env.maxResults))
  obtain ⟨s2, h2⟩ := results_header_head q
  exact ⟨s2 ++ s1, by rw [format_results, h1, h2]; simp⟩

/-- In the successful-search branch, `perform_search`'s reply starts with
the magnifier glyph (truncated or not). -/
theorem perform_search_ok_head (env : Env) (q : String) (results : List SearchResult)
    (hs : env.searchRaw q = .ok results) (hne : results ≠ []) :
    ∃ s, (perform_search env q).1.data = '\xf0' :: s := by
  obtain ⟨s, hfmt⟩ := format_results_head env q results
  simp only [perform_search, hs]
  rw [if_neg hne]
  by_cases hlong : 1800 < pyLen (format_results env q results)
  · rw [if_pos hlong]
    refine ⟨(s.take 1799) ++ truncation_hint.data, ?_⟩
    rw [data_append, pyTake, hfmt]
    rw [show (1800 : Nat) = 1799 + 1 from rfl, List.take_succ_cons]
    rfl
  · rw [if_neg hlong]
    exact ⟨s, hfmt⟩

/-- A string starting with the magnifier glyph does not start with
`I couldn't find`. -/
theorem not_couldnt_of_head {s : String} {rest : List Char}
    (h : s.data = '\xf0' :: rest) :
    pyStartsWith s "I couldn't find" = false := by
  rw [pyStartsWith, h]
  rw [show "I couldn't find".data = 'I' :: " couldn't find".data from rfl]
  rw [startsList]
  norm_num
  intro hc
  exact absurd hc (by decide)

/-- `perform_search` never replies with the empty string. -/
theorem perform_search_ne_empty (env : Env) (q : String) :
    (perform_search env q).1 ≠ "" := by
  rcases hs : env.searchRaw q with _ | results
  · simp only [perform_search, hs]
    apply str_ne_empty_len
    rw [search_error_reply, pyLen_append, pyLen_append]
    have h51 : pyLen "Sorry, I encountered an error while searching for '" = 51 := by decide
    omega
  · by_cases hne : results = []
    · simp only [perform_search, hs]
      rw [if_pos hne]
      apply str_ne_empty_len
      rw [no_results_reply, pyLen_append, pyLen_append]
      have h33 : pyLen "I couldn't find any results for '" = 33 := by decide
      omega
    · obtain ⟨s, h⟩ := perform_search_ok_head env q results hs hne
      exact str_ne_empty (by rw [h]; exact List.cons_ne_nil _ _)

theorem perform_search_calls (env : Env) (q : String) :
    (perform_search env q).2 = [ExtCall.search q] := by
  rcases hs : env.searchRaw q with _ | results
  · simp only [perform_search, hs]
  · simp only [perform_search, hs]
    split <;> rfl

theorem perform_search_no_hits (env : Env) (q : String)
    (h : env.searchRaw q = .ok []) :
    perform_search env q = (no_results_reply q, [ExtCall.search q]) := by
  simp only [perform_search, h]
  rw [if_pos trivial]

theorem starts_noresults (q : String) :
    pyStartsWith (no_results_reply q) "I couldn't find" = true := by
  rw [pyStartsWith, no_results_reply, data_append, data_append]
  rw [show "I couldn't find any results for '".data
      = "I couldn't find".data ++ " any results for '".data by decide]
  rw [List.append_assoc, List.append_assoc]
  exact startsList_self_append _ _

theorem noresults_ne_empty (q : String) : no_results_reply q ≠ "" := by
  apply str_ne_empty_len
  rw [no_results_reply, pyLen_append, pyLen_append]
  have h33 : pyLen "I couldn't find any results for '" = 33 := by decide
  omega

theorem contextual_no_key (env : Env) (h : env.apiKey = false)
    (user_message search_results : String) :
    generate_contextual_response env user_message search_results
      = (.ok search_results, []) := by
  simp only [generate_contextual_response, call_openrouter_api, h]
  rw [if_neg (by simp : ¬ (false = true))]

/-- When none of the canned commands fires and the message starts with
`search `, `generate_response` runs the explicit-search branch. -/
theorem generate_response_explicit (env : Env) (user_message : String)
    (h1 : strContains (pyLower user_message) "hello" = false)
    (h2 : strContains (pyLower user_message) "hi" = false)
    (h3 : strContains (pyLower user_message) "help" = false)
    (h4 : strContains (pyLower user_message) "time" = false)
    (h5 : pyStartsWith (pyLower user_message) "search " = true) :
    generate_response env user_message = explicit_search_branch env user_message := by
  simp [generate_response, h1, h2, h3, h4, h5]

/-- When no command fires at all and an API key is configured,
`generate_response` runs the LLM-assisted branch. -/
theorem generate_response_ai (env : Env) (user_message : String)
    (h1 : strContains (pyLower user_message) "hello" = false)
    (h2 : strContains (pyLower user_message) "hi" = false)
    (h3 : strContains (pyLower user_message) "help" = false)
    (h4 : strContains (pyLower user_message) "time" = false)
    (h5 : pyStartsWith (pyLower user_message) "search " = false)
    (h6 : env.apiKey = true) :
    generate_response env user_message = ai_assisted_branch env user_message := by
  simp [generate_response, h1, h2, h3, h4, h5, h6]

/-- With an API key and a benign completion oracle (never raises, never
yields whitespace-only content), `call_openrouter_api` returns some
nonempty stripped text. -/
theorem call_ok_of_benign (env : Env)
    (Hok : ∀ s u t, env.api s u t ≠ .raise)
    (Hne : ∀ s u t c, env.api s u t = .ok c → pyStripS c ≠ "")
    (s u : String) (t : Nat) (hk : env.apiKey = true) :
    ∃ c, (call_openrouter_api env s u t).1 = .ok (some c) ∧ c ≠ "" := by
  rcases ha : env.api s u t with _ | content
  · exact absurd ha (Hok s u t)
  · refine ⟨pyStripS content, ?_, Hne s u t content ha⟩
    simp only [call_openrouter_api, hk, ha]
    rw [if_pos trivial]

/-- Under a benign completion oracle, contextual composition answers with
some nonempty string whenever its grounding is nonempty. -/
theorem contextual_ok_of_benign (env : Env)
    (Hok : ∀ s u t, env.api s u t ≠ .raise)
    (Hne : ∀ s u t c, env.api s u t = .ok c → pyStripS c ≠ "")
    (m sr : String) (hsr : sr ≠ "") :
    ∃ r, (generate_contextual_response env m sr).1 = .ok r ∧ r ≠ "" := by
  cases hk : env.apiKey
  · exact ⟨sr, by rw [contextual_no_key env hk m sr], hsr⟩
  · obtain ⟨c, hc, hcne⟩ :=
      call_ok_of_benign env Hok Hne contextual_system_prompt (context_message m sr) 200 hk
    refine ⟨c, ?_, hcne⟩
    rcases hcall : call_openrouter_api env contextual_system_prompt (context_message m sr) 200
      with ⟨cr, cs⟩
    rw [hcall] at hc
    simp at hc
    simp only [generate_contextual_response, hcall, hc]
    rw [if_neg hcne]

/-- Under a benign completion oracle with an API key, the direct answer is
some nonempty string. -/
theorem http_ok_of_benign (env : Env)
    (Hok : ∀ s u t, env.api s u t ≠ .raise)
    (Hne : ∀ s u t c, env.api s u t = .ok c → pyStripS c ≠ "")
    (m : String) (hk : env.apiKey = true) :
    ∃ r, (generate_ai_response_http env m).1 = .ok (some r) ∧ r ≠ "" :=
  call_ok_of_benign env Hok Hne direct_system_prompt m 150 hk

/-- Under a benign completion oracle, the explicit-search branch returns
some nonempty string. -/
theorem explicit_branch_ok (env : Env) (user_message : String)
    (Hok : ∀ s u t, env.api s u t ≠ .raise)
    (Hne : ∀ s u t c, env.api s u t = .ok c → pyStripS c ≠ "") :
    ∃ r, (explicit_search_branch env user_message).1 = .ok (some r) ∧ r ≠ "" := by
  simp only [explicit_search_branch]
  set q := pyStripS (pyDrop 7 user_message) with hq
  by_cases hc : (perform_search env q).1 ≠ ""
      ∧ pyStartsWith (perform_search env q).1 "I couldn't find" = false
  · rw [if_pos hc]
    obtain ⟨r, hr, hrne⟩ :=
      contextual_ok_of_benign env Hok Hne user_message (perform_search env q).1 hc.1
    rcases hctx : generate_contextual_response env user_message (perform_search env q).1
      with ⟨cr, cs⟩
    rw [hctx] at hr
    have hcr : cr = Except.ok r := hr
    subst hcr
    exact ⟨r, rfl, hrne⟩
  · rw [if_neg hc]
    refine ⟨(perform_search env q).1, ?_, perform_search_ne_empty env q⟩
    rw [if_pos (perform_search_ne_empty env q)]

/-- Under a benign completion oracle with an API key, the LLM-assisted
branch returns some nonempty string. -/
theorem ai_branch_ok (env : Env) (user_message : String)
    (Hok : ∀ s u t, env.api s u t ≠ .raise)
    (Hne : ∀ s u t c, env.api s u t = .ok c → pyStripS c ≠ "")
    (hk : env.apiKey = true) :
    ∃ r, (ai_assisted_branch env user_message).1 = .ok (some r) ∧ r ≠ "" := by
  obtain ⟨c, hc, hcne⟩ := call_ok_of_benign env Hok Hne analyze_system_prompt user_message 100 hk
  rcases han : analyze_search_need env user_message with ⟨ar, cs1⟩
  have har : ar = .ok (some c) := by
    have h2 := hc
    rw [show call_openrouter_api env analyze_system_prompt user_message 100
        = analyze_search_need env user_message from rfl, han] at h2
    simpa using h2
  subst har
  simp only [ai_assisted_branch, han]
  by_cases hss : should_search (some c) = true
  · rw [if_pos hss]
    set q := extract_search_query (some c) user_message with hq
    by_cases hcnd : (perform_search env q).1 ≠ ""
        ∧ pyStartsWith (perform_search env q).1 "I couldn't find" = false
    · rw [if_pos hcnd]
      obtain ⟨r, hr, hrne⟩ :=
        contextual_ok_of_benign env Hok Hne user_message (perform_search env q).1 hcnd.1
      rcases hctx : generate_contextual_response env user_message (perform_search env q).1
        with ⟨cr, cs3⟩
      rw [hctx] at hr
      have hcr : cr = Except.ok r := hr
      subst hcr
      exact ⟨r, rfl, hrne⟩
    · rw [if_neg hcnd]
      obtain ⟨r, hr, hrne⟩ := http_ok_of_benign env Hok Hne user_message hk
      rcases hh : generate_ai_response_http env user_message with ⟨hr2, cs3⟩
      rw [hh] at hr
      have hcr : hr2 = Except.ok (some r) := hr
      subst hcr
      exact ⟨r, rfl, hrne⟩
  · rw [if_neg hss]
    obtain ⟨r, hr, hrne⟩ := http_ok_of_benign env Hok Hne user_message hk
    rcases hh : generate_ai_response_http env user_message with ⟨hr2, cs3⟩
    rw [hh] at hr
    have hcr : hr2 = Except.ok (some r) := hr
    subst hcr
    exact ⟨r, rfl, hrne⟩

/-- The direct-answer helper only ever logs completion calls. -/
theorem http_no_search (env : Env) (m : String) (p : String) :
    ExtCall.search p ∉ (generate_ai_response_http env m).2 := by
  simp only [generate_ai_response_http, call_openrouter_api]
  cases hk : env.apiKey
  · rw [if_neg (by simp : ¬ (false = true))]
    simp
  · rw [if_pos rfl]
    rcases ha : env.api direct_system_prompt m 150 with _ | c <;> simp

/-- The `except` handler keeps the calls already logged. -/
theorem handler_calls_sub (env : Env) (m : String) (cs : List ExtCall) (x : ExtCall)
    (hx : x ∈ cs) : x ∈ (ai_error_handler env m cs).2 := by
  simp only [ai_error_handler]
  cases hk : env.apiKey
  · rw [if_neg (by simp : ¬ (false = true))]
    exact hx
  · rw [if_pos rfl]
    rcases hh : generate_ai_response_http env m with ⟨r, cs2⟩
    exact List.mem_append.mpr (Or.inl hx)

/-- The `except` handler adds no search call of its own. -/
theorem handler_no_search (env : Env) (m : String) (cs : List ExtCall)
    (hcs : ∀ p, ExtCall.search p ∉ cs) (q : String) :
    ExtCall.search q ∉ (ai_error_handler env m cs).2 := by
  simp only [ai_error_handler]
  cases hk : env.apiKey
  · rw [if_neg (by simp : ¬ (false = true))]
    exact hcs q
  · rw [if_pos rfl]
    rcases hh : generate_ai_response_http env m with ⟨r, cs2⟩
    intro hmem
    rcases List.mem_append.mp hmem with h | h
    · exact hcs q h
    · have hn := http_no_search env m q
      rw [hh] at hn
      exact hn h

/-- A cons of a completion call keeps a list search-free. -/
theorem no_search_cons (a u : String) (t : Nat) (cs : List ExtCall)
    (h : ∀ p, ExtCall.search p ∉ cs) (p : String) :
    ExtCall.search p ∉ (ExtCall.completion a u t :: cs) := by
  intro hp
  rcases List.mem_cons.mp hp with h1 | h1
  · exact ExtCall.noConfusion h1
  · exact h p h1

theorem ciLookingAt_append {p l : List Char} (h : ciLookingAt p l = true)
    (r : List Char) : ciLookingAt p (l ++ r) = true := by
  induction p generalizing l with
  | nil => rfl
  | cons a ps ih =>
    cases l with
    | nil => exact absurd h (by simp [ciLookingAt])
    | cons c t =>
      rw [List.cons_append]
      simp only [ciLookingAt, Bool.and_eq_true] at h ⊢
      exact ⟨h.1, ih h.2⟩

theorem takeWhile_all_stop {p : Char → Bool} (xs : List Char)
    (hxs : ∀ c ∈ xs, p c = true) {y : Char} (hy : p y = false) (ys : List Char) :
    (xs ++ y :: ys).takeWhile p = xs := by
  induction xs with
  | nil => simp [List.takeWhile_cons, hy]
  | cons a t ih =>
    have ha := hxs a (List.mem_cons_self a t)
    rw [List.cons_append, List.takeWhile_cons, ha]
    simp only [if_true]
    rw [ih (fun c hc => hxs c (List.mem_cons_of_mem a hc))]

/-- The pattern does match right at `Search: "X"` when `X` is nonempty and
made of capturing-class characters, and the capture is exactly `X`. -/
theorem matchQueryAt_hit (X suf : List Char) (hX1 : X ≠ [])
    (hX2 : ∀ c ∈ X, capOk c = true) :
    matchQueryAt ("Search: \"".data ++ (X ++ '"' :: suf)) = some X := by
  have hci : ciLookingAt "search:".data ("Search: \"".data ++ (X ++ '"' :: suf)) = true :=
    ciLookingAt_append (by decide) _
  rw [matchQueryAt, if_pos hci]
  have hdrop : ("Search: \"".data ++ (X ++ '"' :: suf)).drop 7
      = ' ' :: '"' :: (X ++ '"' :: suf) := by
    rw [show "Search: \"".data = "Search:".data ++ [' ', '"'] by decide]
    rw [List.append_assoc]
    rw [show (7 : Nat) = ("Search:".data).length by decide]
    rw [List.drop_left]
    rfl
  rw [hdrop]
  have htw : ((' ' :: '"' :: (X ++ '"' :: suf)).takeWhile pyIsSpace) = [' '] := by
    rw [List.takeWhile_cons, List.takeWhile_cons]
    rw [show pyIsSpace ' ' = true from by decide, show pyIsSpace '"' = false from by decide]
    simp
  have hcc : classCapture (X ++ '"' :: suf) = some X := by
    simp only [classCapture]
    rw [takeWhile_all_stop X hX2 (by decide) suf]
    rw [if_neg hX1]
  have hq : quoteClass ((' ' :: '"' :: (X ++ '"' :: suf)).drop (0 + 1)) = some X := by
    show quoteClass ('"' :: (X ++ '"' :: suf)) = some X
    simp only [quoteClass]
    rw [if_pos (by decide)]
    rw [hcc]
  show tryWs (' ' :: '"' :: (X ++ '"' :: suf))
      ((List.takeWhile pyIsSpace (' ' :: '"' :: (X ++ '"' :: suf))).length) = some X
  rw [htw]
  show tryWs (' ' :: '"' :: (X ++ '"' :: suf)) (0 + 1) = some X
  simp only [tryWs, hq]

/-- If the pattern matches at no position below `k`, scanning may skip the
first `k` positions. -/
theorem findQuery_skip (k : Nat) : ∀ l : List Char,
    (∀ n, n < k → matchQueryAt (l.drop n) = none) →
    findQuery l = findQuery (l.drop k) := by
  induction k with
  | zero =>
    intro l _
    rw [List.drop_zero]
  | succ k ih =>
    intro l h
    cases l with
    | nil => rfl
    | cons c t =>
      have h0 : matchQueryAt (c :: t) = none := by
        have h' := h 0 (Nat.succ_pos k)
        rwa [List.drop_zero] at h'
      simp only [findQuery, h0]
      rw [List.drop_succ_cons]
      exact ih t (fun n hn => by
        have h2 := h (n + 1) (by omega)
        rwa [List.drop_succ_cons] at h2)

theorem ciLookingAt_eq_startsList (p : List Char) :
    ∀ l, ciLookingAt p l = startsList p (l.map Char.toLower) := by
  induction p with
  | nil => intro l; cases l <;> rfl
  | cons a ps ih =>
    intro l
    cases l with
    | nil => rfl
    | cons c t =>
      simp only [List.map_cons, ciLookingAt, startsList, ih]
      by_cases h : Char.toLower c = a
      · simp [h]
      · simp [h, Ne.symm h]

/-- Without a case-insensitive `search:` substring, the pattern matches
nowhere. -/
theorem findQuery_none (l : List Char)
    (h : listContains ("search:".data) (l.map Char.toLower) = false) :
    findQuery l = none := by
  induction l with
  | nil => rfl
  | cons c t ih =>
    rw [List.map_cons, listContains, Bool.or_eq_false_iff] at h
    have hm : matchQueryAt (c :: t) = none := by
      rw [matchQueryAt, if_neg]
      rw [ciLookingAt_eq_startsList, List.map_cons]
      simp [h.1]
    simp only [findQuery, hm]
    exact ih h.2

/-- A query of 1801 characters (the `a…a` below), used to overflow the
1800-character cap through the header line alone. -/
def qLong : String := String.mk (List.replicate 1801 'a')

theorem pyLen_qLong : pyLen qLong = 1801 := by
  rw [qLong, pyLen_mk, List.length_replicate]

/-! ## Claim theorems -/

/-- C1 (counterexample): with an API key configured, on the explicit
`search ` command with a successful search, a raising completion call in
contextual composition propagates out of `generate_response` — the claim
that nothing ever raises to the caller is false. -/
theorem C1_counterexample :
    (generate_response envApiRaise "search cats").1 = .error () := rfl

/-- C1 (amended): `generate_response` never raises and returns a nonempty
string PROVIDED no completion call raises and every successful completion
has content that is nonempty after stripping; without that proviso it can
raise (a contextual-composition exception on the explicit-search path, or
one thrown inside the `except` handler's retry, is uncaught) or return an
empty string (a whitespace-only direct answer). -/
theorem C1_response_totality (env : Env) (user_message : String)
    (Hok : ∀ s u t, env.api s u t ≠ .raise)
    (Hne : ∀ s u t c, env.api s u t = .ok c → pyStripS c ≠ "") :
    ∃ r, (generate_response env user_message).1 = .ok (some r) ∧ r ≠ "" := by
  simp only [generate_response]
  by_cases hg : (strContains (pyLower user_message) "hello"
      || strContains (pyLower user_message) "hi") = true
  · rw [if_pos hg]
    exact ⟨greeting_reply, rfl, by decide⟩
  · rw [if_neg hg]
    by_cases hh : strContains (pyLower user_message) "help" = true
    · rw [if_pos hh]
      exact ⟨help_reply, rfl, by decide⟩
    · rw [if_neg hh]
      by_cases ht : strContains (pyLower user_message) "time" = true
      · rw [if_pos ht]
        refine ⟨"Current time: " ++ env.now, rfl, ?_⟩
        apply str_ne_empty_len
        rw [pyLen_append]
        have h14 : pyLen "Current time: " = 14 := by decide
        omega
      · rw [if_neg ht]
        by_cases hs : pyStartsWith (pyLower user_message) "search " = true
        · rw [if_pos hs]
          exact explicit_branch_ok env user_message Hok Hne
        · rw [if_neg hs]
          by_cases hk : env.apiKey = true
          · rw [if_pos hk]
            exact ai_branch_ok env user_message Hok Hne hk
          · rw [if_neg hk]
            refine ⟨fallback_reply user_message, rfl, ?_⟩
            apply str_ne_empty_len
            rw [fallback_reply, pyLen_append, pyLen_append]
            have h25 : pyLen "I received your message: " = 25 := by decide
            omega

/-- C1 witness: a benign environment (all completions answer a fixed
nonempty text) on the explicit-search message of the counterexample. -/
theorem C1_totality_witness :
    ∃ r, (generate_response envAllOk "search cats").1 = .ok (some r) ∧ r ≠ "" :=
  C1_response_totality envAllOk "search cats"
    (fun s u t h => by simp [envAllOk] at h)
    (fun s u t c hc => by
      simp [envAllOk] at hc
      rw [← hc]
      decide)

/-- C2 (code bug, evaluated): when the classifier asks for search and the
search backend raises, `perform_search`'s failure text does not start with
`I couldn't find`, so instead of the commented direct-answer fallback it is
fed to contextual composition as grounding, and (here, with an empty
contextual completion) surfaced verbatim to the user. -/
theorem C2_surfaces_search_failure :
    (generate_response envSearchFails "latest news?").1
      = .ok (some (search_error_reply "latest news?")) := rfl

/-- C3 (counterexample): the rendering CAN exceed 1800 characters — when
the raw rendering is longer than 1800, the code appends the hint AFTER
cutting at 1800, so the reply is 1800 + 60 characters long.  (Here the
header alone exceeds the cap thanks to a 1801-character query.) -/
theorem C3_counterexample : 1800 < pyLen (perform_search envNoKey qLong).1 := by
  have he : format_entries envNoKey.summaryLength 1
      (([⟨"Cat facts", "All about cats", "u"⟩] : List SearchResult).take envNoKey.maxResults)
      = ["1. Cat facts\nAll about cats...\n"] := by decide
  have hfmt : format_results envNoKey qLong [⟨"Cat facts", "All about cats", "u"⟩]
      = results_header qLong ++ "\n" ++ "1. Cat facts\nAll about cats...\n" := by
    rw [format_results, he]
    simp [joinNl]
  have hlen : pyLen (format_results envNoKey qLong [⟨"Cat facts", "All about cats", "u"⟩])
      = 1860 := by
    rw [hfmt, pyLen_append, pyLen_append, results_header, pyLen_append, pyLen_append,
      pyLen_qLong]
    have h1 : pyLen "\xf0Ÿ” Search results for '" = 24 := by decide
    have h2 : pyLen "':\n" = 3 := by decide
    have h3 : pyLen "\n" = 1 := by decide
    have h4 : pyLen "1. Cat facts\nAll about cats...\n" = 31 := by decide
    omega
  have hok : perform_search envNoKey qLong
      = (if 1800 < pyLen (format_results envNoKey qLong [⟨"Cat facts", "All about cats", "u"⟩])
         then pyTake 1800 (format_results envNoKey qLong [⟨"Cat facts", "All about cats", "u"⟩])
            ++ truncation_hint
         else format_results envNoKey qLong [⟨"Cat facts", "All about cats", "u"⟩],
         [.search qLong]) := rfl
  have hhint : pyLen truncation_hint = 60 := by decide
  rw [hok]
  rw [if_pos (by rw [hlen]; omega)]
  rw [pyLen_append, pyLen_pyTake, hlen]
  omega

/-- C3 (amended): for a successful search with a nonempty result list, the
reply equals the raw rendering when that is at most 1800 characters, and
otherwise equals its first 1800 characters with the fixed hint appended —
so the reply never exceeds 1800 characters PLUS the length of the hint
(60), rather than 1800. -/
theorem C3_truncation_bound (env : Env) (query : String) (results : List SearchResult)
    (hs : env.searchRaw query = .ok results) (hne : results ≠ []) :
    (perform_search env query).1
        = (if 1800 < pyLen (format_results env query results)
           then pyTake 1800 (format_results env query results) ++ truncation_hint
           else format_results env query results)
      ∧ pyLen (perform_search env query).1 ≤ 1800 + pyLen truncation_hint := by
  have h1 : (perform_search env query).1
      = (if 1800 < pyLen (format_results env query results)
         then pyTake 1800 (format_results env query results) ++ truncation_hint
         else format_results env query results) := by
    simp only [perform_search, hs]
    rw [if_neg hne]
  refine ⟨h1, ?_⟩
  rw [h1]
  by_cases hl : 1800 < pyLen (format_results env query results)
  · rw [if_pos hl, pyLen_append, pyLen_pyTake]
    have := Nat.min_le_left 1800 (pyLen (format_results env query results))
    omega
  · rw [if_neg hl]
    omega

/-- C3 witness: a concrete successful search, with the bound instantiated
by the amended theorem. -/
theorem C3_truncation_bound_witness :
    envNoKey.searchRaw "cats" = .ok [⟨"Cat facts", "All about cats", "u"⟩]
      ∧ ([⟨"Cat facts", "All about cats", "u"⟩] : List SearchResult) ≠ []
      ∧ pyLen (perform_search envNoKey "cats").1 ≤ 1800 + pyLen truncation_hint :=
  ⟨rfl, by decide,
   (C3_truncation_bound envNoKey "cats" [⟨"Cat facts", "All about cats", "u"⟩]
     rfl (by decide)).2⟩

/-- C4 (counterexample): `clean_text` is not idempotent — removing the
entity-like span `&x;` from `a &x; b` leaves a double space that a second
pass collapses. -/
theorem C4_counterexample :
    clean_text (clean_text "a &x; b") ≠ clean_text "a &x; b" := by decide

/-- C4 (amended): `clean_text` is total, and empty input, tag-only input
and entity-only input all yield the empty string; but it is not
idempotent, because removing an entity/tag span can create a new
whitespace run (or a new entity/tag). -/
theorem C4_normalize_behaviour :
    clean_text "" = ""
      ∧ clean_text "<p><b></b></p>" = ""
      ∧ clean_text "&amp;&#39;" = ""
      ∧ clean_text (clean_text "a &x; b") ≠ clean_text "a &x; b" := by decide

/-- C5 (confirmed): any message whose lowercase form contains `hello` or
`hi` anywhere gets the canned greeting, for every environment (so
independently of configuration), with no external call issued. -/
theorem C5_canned_greeting (env : Env) (user_message : String)
    (h : strContains (pyLower user_message) "hello" = true
       ∨ strContains (pyLower user_message) "hi" = true) :
    generate_response env user_message = (.ok (some greeting_reply), []) := by
  have hc : (strContains (pyLower user_message) "hello"
      || strContains (pyLower user_message) "hi") = true := by
    rcases h with h | h <;> simp [h]
  simp [generate_response, hc]

/-- C5 witness: a concrete greeting message in an environment whose
services all raise. -/
theorem C5_greeting_witness :
    generate_response envApiRaise "Hi, what can you do?" = (.ok (some greeting_reply), []) :=
  C5_canned_greeting envApiRaise "Hi, what can you do?" (Or.inr (by decide))

/-- C6 (counterexample): `search history` starts with `search ` but the
canned-command check runs first and `history` contains `hi`, so the
greeting is returned and no search is performed at all. -/
theorem C6_counterexample :
    generate_response envNoHits "search history" = (.ok (some greeting_reply), []) := rfl

/-- C6 (amended): for a message starting with `search ` (case-insensitive)
in which no canned-command substring (`hello`, `hi`, `help`, `time`)
occurs, the query passed to the search provider is the stripped remainder
of the message, and a search with zero results yields the no-results reply
naming that literal query. -/
theorem C6_explicit_search_no_results (env : Env) (user_message : String)
    (h1 : strContains (pyLower user_message) "hello" = false)
    (h2 : strContains (pyLower user_message) "hi" = false)
    (h3 : strContains (pyLower user_message) "help" = false)
    (h4 : strContains (pyLower user_message) "time" = false)
    (h5 : pyStartsWith (pyLower user_message) "search " = true)
    (h6 : env.searchRaw (pyStripS (pyDrop 7 user_message)) = .ok []) :
    generate_response env user_message
      = (.ok (some (no_results_reply (pyStripS (pyDrop 7 user_message)))),
         [.search (pyStripS (pyDrop 7 user_message))]) := by
  rw [generate_response_explicit env user_message h1 h2 h3 h4 h5]
  simp only [explicit_search_branch, perform_search_no_hits env _ h6]
  rw [if_neg]
  · rw [if_pos (noresults_ne_empty _)]
  · intro hcon
    rw [starts_noresults] at hcon
    exact absurd hcon.2 (by simp)

/-- C6 witness: `Search rust lang` with an empty hit list. -/
theorem C6_no_results_witness :
    generate_response envNoHits "Search rust lang"
      = (.ok (some (no_results_reply "rust lang")), [.search "rust lang"]) :=
  C6_explicit_search_no_results envNoHits "Search rust lang"
    (by decide) (by decide) (by decide) (by decide) (by decide) rfl

/-- C10 (confirmed): for a message starting with `search ` that contains
no canned-command substring, the search runs even without completion
credentials, and a successful nonempty search makes `generate_response`
return `perform_search`'s raw formatted text, because the completion call
returns `None` without credentials and contextual composition falls back
to the raw results. -/
theorem C10_search_without_credentials (env : Env) (user_message : String)
    (results : List SearchResult)
    (h0 : env.apiKey = false)
    (h1 : strContains (pyLower user_message) "hello" = false)
    (h2 : strContains (pyLower user_message) "hi" = false)
    (h3 : strContains (pyLower user_message) "help" = false)
    (h4 : strContains (pyLower user_message) "time" = false)
    (h5 : pyStartsWith (pyLower user_message) "search " = true)
    (h6 : env.searchRaw (pyStripS (pyDrop 7 user_message)) = .ok results)
    (h7 : results ≠ []) :
    generate_response env user_message
      = (.ok (some (perform_search env (pyStripS (pyDrop 7 user_message))).1),
         [.search (pyStripS (pyDrop 7 user_message))]) := by
  rw [generate_response_explicit env user_message h1 h2 h3 h4 h5]
  obtain ⟨s, hhead⟩ := perform_search_ok_head env _ results h6 h7
  simp only [explicit_search_branch]
  rw [if_pos ⟨perform_search_ne_empty env _, not_couldnt_of_head hhead⟩]
  rw [contextual_no_key env h0 user_message]
  simp [perform_search_calls]

/-- C10 witness: `search cats` without credentials returns the raw
formatted single-hit rendering, with exactly one search call. -/
theorem C10_raw_results_witness :
    generate_response envNoKey "search cats"
      = (.ok (some (perform_search envNoKey "cats").1), [.search "cats"]) :=
  C10_search_without_credentials envNoKey "search cats"
    [⟨"Cat facts", "All about cats", "u"⟩] rfl
    (by decide) (by decide) (by decide) (by decide) (by decide) rfl (by decide)

/-- C7 (counterexample): a classifier response containing
`<search>NO</search>` does not prevent search when `<search>YES</search>`
is also present — `should_search` only looks for the YES tag. -/
theorem C7_counterexample :
    ciContains "<search>NO</search> but also <search>YES</search>" "<search>NO</search>" = true
      ∧ ExtCall.search "latest scores" ∈ (generate_response envBothTags "latest scores").2 := by
  exact ⟨by decide, by decide⟩

/-- C7 (amended): for a non-command message with an API key configured,
the search provider is invoked iff the classifier call succeeds and its
(stripped) response contains `<search>YES</search>` case-insensitively
(`should_search`); in particular a response containing only
`<search>NO</search>` — or any response without the YES tag, or a failed
or empty classification — never triggers search.  (The original claim's
first half fails when BOTH tags are present, as the counterexample
shows.) -/
theorem C7_search_iff_yes_tag (env : Env) (user_message : String)
    (h1 : strContains (pyLower user_message) "hello" = false)
    (h2 : strContains (pyLower user_message) "hi" = false)
    (h3 : strContains (pyLower user_message) "help" = false)
    (h4 : strContains (pyLower user_message) "time" = false)
    (h5 : pyStartsWith (pyLower user_message) "search " = false)
    (h6 : env.apiKey = true) :
    (∃ q, ExtCall.search q ∈ (generate_response env user_message).2)
      ↔ (∃ c, env.api analyze_system_prompt user_message 100 = .ok c
           ∧ should_search (some (pyStripS c)) = true) := by
  rw [generate_response_ai env user_message h1 h2 h3 h4 h5 h6]
  rcases ha : env.api analyze_system_prompt user_message 100 with _ | c
  · have han : analyze_search_need env user_message
        = (.error (), [ExtCall.completion analyze_system_prompt user_message 100]) := by
      simp only [analyze_search_need, call_openrouter_api, h6, ha]
      rw [if_pos trivial]
    simp only [ai_assisted_branch, han]
    constructor
    · rintro ⟨q, hq⟩
      exact absurd hq (handler_no_search env user_message _
        (no_search_cons _ _ _ _ (fun p hp => (List.not_mem_nil _) hp)) q)
    · rintro ⟨c, hc, _⟩
      exact absurd hc (by simp)
  · have han : analyze_search_need env user_message
        = (.ok (some (pyStripS c)), [ExtCall.completion analyze_system_prompt user_message 100]) := by
      simp only [analyze_search_need, call_openrouter_api, h6, ha]
      rw [if_pos trivial]
    simp only [ai_assisted_branch, han]
    by_cases hss : should_search (some (pyStripS c)) = true
    · rw [if_pos hss]
      set q := extract_search_query (some (pyStripS c)) user_message with hqdef
      have hmem2 : ExtCall.search q ∈ (perform_search env q).2 := by
        rw [perform_search_calls]
        exact List.mem_singleton.mpr rfl
      constructor
      · intro _
        exact ⟨c, rfl, hss⟩
      · intro _
        refine ⟨q, ?_⟩
        by_cases hcnd : (perform_search env q).1 ≠ ""
            ∧ pyStartsWith (perform_search env q).1 "I couldn't find" = false
        · rw [if_pos hcnd]
          rcases hctx : generate_contextual_response env user_message (perform_search env q).1
            with ⟨cr, cs3⟩
          cases cr with
          | error e =>
            exact handler_calls_sub env user_message _ _
              (List.mem_append.mpr (Or.inl (List.mem_append.mpr (Or.inr hmem2))))
          | ok r =>
            exact List.mem_append.mpr (Or.inl (List.mem_append.mpr (Or.inr hmem2)))
        · rw [if_neg hcnd]
          rcases hh : generate_ai_response_http env user_message with ⟨r2, cs3⟩
          cases r2 with
          | error e =>
            exact handler_calls_sub env user_message _ _
              (List.mem_append.mpr (Or.inl (List.mem_append.mpr (Or.inr hmem2))))
          | ok o =>
            exact List.mem_append.mpr (Or.inl (List.mem_append.mpr (Or.inr hmem2)))
    · rw [if_neg hss]
      rcases hh : generate_ai_response_http env user_message with ⟨r2, cs3⟩
      have hcs3 : ∀ p, ExtCall.search p ∉ cs3 := by
        intro p hp
        have hn := http_no_search env user_message p
        rw [hh] at hn
        exact hn hp
      have hfree : ∀ p, ExtCall.search p
          ∉ [ExtCall.completion analyze_system_prompt user_message 100] ++ cs3 := by
        intro p hp
        rcases List.mem_append.mp hp with h | h
        · exact ExtCall.noConfusion (List.mem_singleton.mp h)
        · exact hcs3 p h
      have hrhs : ¬ ∃ c', ApiOutcome.ok c = ApiOutcome.ok c'
          ∧ should_search (some (pyStripS c')) = true := by
        rintro ⟨c', hc', hss'⟩
        injection hc' with he
        subst he
        exact hss hss'
      cases r2 with
      | error e =>
        constructor
        · rintro ⟨p, hp⟩
          exact absurd hp (handler_no_search env user_message _ hfree p)
        · intro hr
          exact absurd hr hrhs
      | ok o =>
        constructor
        · rintro ⟨p, hp⟩
          exact absurd hp (hfree p)
        · intro hr
          exact absurd hr hrhs

/-- C7 witness: a classifier that answers `<search>NO</search>` — the
iff instantiates to search never being invoked. -/
theorem C7_no_tag_witness :
    (∃ q, ExtCall.search q ∈ (generate_response envSaysNo "why is the sky blue").2)
      ↔ (∃ c, envSaysNo.api analyze_system_prompt "why is the sky blue" 100 = .ok c
           ∧ should_search (some (pyStripS c)) = true) :=
  C7_search_iff_yes_tag envSaysNo "why is the sky blue"
    (by decide) (by decide) (by decide) (by decide) (by decide) rfl

/-- C8 (counterexample): for the classifier response
`<search>YES</search> Current data. Search: "U.S. news"` the capturing
class stops at the first `.`, so the query used is `U`, not `U.S. news`. -/
theorem C8_counterexample :
    extract_search_query (some "<search>YES</search> Current data. Search: \"U.S. news\"") "orig"
        = "U"
      ∧ "U" ≠ pyStripS "U.S. news" := by
  exact ⟨rfl, by decide⟩

/-- C8 (amended): when the classifier response embeds `Search: "X"` with
`X` nonempty, made only of capturing-class characters (no quote, period or
newline — the counterexample shows a period cuts the capture short),
stripping to nonempty, and with no earlier position matching the pattern,
the query used is exactly `X` stripped; and a response with no `search:`
(case-insensitive) substring falls back to the user message verbatim. -/
theorem C8_query_extraction (pre X suf user_message resp2 : String)
    (hX1 : X.data ≠ [])
    (hX2 : ∀ c ∈ X.data, capOk c = true)
    (hX3 : pyStripS X ≠ "")
    (hpre : ∀ n, n < pre.data.length →
      matchQueryAt ((pre ++ "Search: \"" ++ X ++ "\"" ++ suf).data.drop n) = none)
    (hresp2 : ciContains resp2 "Search:" = false) :
    extract_search_query (some (pre ++ "Search: \"" ++ X ++ "\"" ++ suf)) user_message
        = pyStripS X
      ∧ extract_search_query (some resp2) user_message = user_message := by
  have hdata : (pre ++ "Search: \"" ++ X ++ "\"" ++ suf).data
      = pre.data ++ ("Search: \"".data ++ (X.data ++ '"' :: suf.data)) := by
    simp only [data_append, List.append_assoc,
      show ("\"" : String).data = ['"'] from rfl, List.singleton_append]
  constructor
  · have hm : matchQueryAt ("Search: \"".data ++ (X.data ++ '"' :: suf.data)) = some X.data :=
      matchQueryAt_hit X.data suf.data hX1 hX2
    have hfq : findQuery (pre ++ "Search: \"" ++ X ++ "\"" ++ suf).data = some X.data := by
      rw [hdata]
      rw [findQuery_skip pre.data.length _
        (fun n hn => by have h2 := hpre n hn; rwa [hdata] at h2)]
      rw [List.drop_left]
      rw [show "Search: \"".data ++ (X.data ++ '"' :: suf.data)
          = 'S' :: ("earch: \"".data ++ (X.data ++ '"' :: suf.data)) from rfl]
      have hm' : matchQueryAt ('S' :: ("earch: \"".data ++ (X.data ++ '"' :: suf.data)))
          = some X.data := hm
      simp only [findQuery, hm']
    have hne : (pre ++ "Search: \"" ++ X ++ "\"" ++ suf) ≠ "" := by
      apply str_ne_empty
      rw [hdata]
      intro hc
      rcases List.append_eq_nil.mp hc with ⟨_, h2⟩
      rcases List.append_eq_nil.mp h2 with ⟨h3, _⟩
      exact absurd h3 (by decide)
    simp only [extract_search_query]
    rw [if_neg hne, hfq]
    have hX3' : String.mk (pyStrip X.data) ≠ "" := hX3
    show (if String.mk (pyStrip X.data) = "" then user_message
        else String.mk (pyStrip X.data)) = pyStripS X
    rw [if_neg hX3']
    rfl
  · simp only [extract_search_query]
    by_cases hr : resp2 = ""
    · rw [if_pos hr]
    · rw [if_neg hr]
      have hnone : findQuery resp2.data = none := by
        apply findQuery_none
        have hlow : ("Search:".data.map Char.toLower) = "search:".data := by decide
        rw [ciContains, hlow] at hresp2
        exact hresp2
      rw [hnone]

/-- C8 witness: a realistic classifier response with a quoted suggestion,
and a tag-only response with no suggestion. -/
theorem C8_query_extraction_witness :
    extract_search_query
        (some ("<search>YES</search> Needs current data. "
          ++ "Search: \"" ++ "btc price" ++ "\"" ++ "")) "orig msg"
        = pyStripS "btc price"
      ∧ extract_search_query (some "<search>NO</search> general") "orig msg" = "orig msg" :=
  C8_query_extraction "<search>YES</search> Needs current data. " "btc price" "" "orig msg"
    "<search>NO</search> general"
    (by decide) (by decide) (by decide) (by decide) (by decide)

/-- C9 (counterexample): when the contextual completion call raises, the
exception propagates out of `generate_contextual_response`; the raw search
results are not returned. -/
theorem C9_counterexample :
    (generate_contextual_response envApiRaise "any question" "some results").1 = .error () := rfl

/-- C9 (amended): with nonempty formatted search results, contextual
composition returns them unmodified when the completion is UNAVAILABLE (no
API key: the call returns `None`) or returns content stripping to empty;
but when the call RAISES (transport/malformed failure), the exception
propagates instead of falling back to the raw results. -/
theorem C9_contextual_fallback (env : Env) (user_message search_results : String)
    (_hsr : search_results ≠ "") :
    (env.apiKey = false →
        (generate_contextual_response env user_message search_results).1
          = .ok search_results)
      ∧ (∀ c, env.api contextual_system_prompt
            (context_message user_message search_results) 200 = .ok c →
          pyStripS c = "" →
          (generate_contextual_response env user_message search_results).1
            = .ok search_results)
      ∧ (env.apiKey = true →
          env.api contextual_system_prompt
            (context_message user_message search_results) 200 = .raise →
          (generate_contextual_response env user_message search_results).1
            = .error ()) := by
  refine ⟨?_, ?_, ?_⟩
  · intro hk
    rw [contextual_no_key env hk]
  · intro c hc hstrip
    cases hk : env.apiKey
    · rw [contextual_no_key env hk]
    · simp [generate_contextual_response, call_openrouter_api, hk, hc, hstrip]
  · intro hk hraise
    simp [generate_contextual_response, call_openrouter_api, hk, hraise]

/-- C9 witness: without credentials (the unavailable case), the raw
results come back unmodified. -/
theorem C9_fallback_witness :
    ("some results" : String) ≠ ""
      ∧ (generate_contextual_response envNoKey "a question" "some results").1
          = .ok "some results" :=
  ⟨by decide,
   (C9_contextual_fallback envNoKey "a question" "some results" (by decide)).1 rfl⟩

end LineBot
